import Mathlib

/-!
# Verification of the thermal-foot sensor simulator (`mlx_server.py`)

Shallow embedding of the simulated thermal sensor and its per-connection
streaming session. Temperatures are modelled over `ℚ`; the library sine
function and the Gaussian noise generator are external collaborators and are
passed in as oracles (`sinFn`, `noise`). Matrices of shape `rows × cols` are
functions `Fin rows → Fin cols → ℚ`, so the shape invariant of the source
(`base` has shape `(rows, cols)`, never resized) is carried by the types.
-/

namespace MlxServer

/-- `VALID_SIMULATION_MODES` from the source. -/
def VALID_SIMULATION_MODES : List String := ["baja_diferencia", "alta_diferencia"]

/-- `VALID_FEET` from the source. -/
def VALID_FEET : List String := ["izquierdo", "derecho"]

/-- `FPS = 4.0` from the source. -/
def FPS : ℚ := 4

/-- `INTERVAL = 1.0 / FPS` from the source (the 250 ms sender period). -/
def INTERVAL : ℚ := 1 / FPS

/-- State of `SimulatedSensor`: the fields of the Python object. `rows` and
`cols` are type indices since the shape is fixed at construction. -/
structure Sensor (rows cols : ℕ) where
  temp_min : ℚ
  temp_max : ℚ
  noise_std : ℚ
  t : ℚ
  image_path : String
  simulation_mode : String
  foot : String
  base : Fin rows → Fin cols → ℚ

/-- Result of opening the base image file: either the grayscale pixel
array (already resized to `rows × cols`), or `FileNotFoundError`. -/
inductive LoadResult (rows cols : ℕ) where
  | found (arr : Fin rows → Fin cols → ℚ)
  | notFound

/-- `SimulatedSensor._load_image`: normalizes the grayscale array into
`[0,1]` (all zeros when the image is constant, i.e. `amax == amin`) and maps
it affinely onto `[temp_min, temp_max]`; on a missing file it falls back to a
uniform matrix at the midpoint temperature. Returns the new `base`. -/
def load_image {rows cols : ℕ} [NeZero rows] [NeZero cols]
    (res : LoadResult rows cols) (temp_min temp_max : ℚ) :
    Fin rows → Fin cols → ℚ :=
  match res with
  | .notFound => fun _ _ => (temp_min + temp_max) / 2
  | .found arr =>
    have hne : (Finset.univ : Finset (Fin rows × Fin cols)).Nonempty :=
      ⟨(⟨0, Nat.pos_of_ne_zero (NeZero.ne rows)⟩,
        ⟨0, Nat.pos_of_ne_zero (NeZero.ne cols)⟩), Finset.mem_univ _⟩
    let amin := Finset.univ.inf' hne (fun p : Fin rows × Fin cols => arr p.1 p.2)
    let amax := Finset.univ.sup' hne (fun p : Fin rows × Fin cols => arr p.1 p.2)
    let norm : Fin rows → Fin cols → ℚ :=
      if amax = amin then fun _ _ => 0
      else fun i j => (arr i j - amin) / (amax - amin)
    fun i j => temp_min + (temp_max - temp_min) * norm i j

/-- The fixed `image_map` of `set_config` with its `.get(foot,
"pie_izquierdo.png")` default. -/
def image_map_get (foot : String) : String :=
  if foot = "izquierdo" then "pie_izquierdo.png"
  else if foot = "derecho" then "pie_derecho.png"
  else "pie_izquierdo.png"

/-- First block of `SimulatedSensor.set_config`: the `simulation_mode`
argument is applied when it is truthy (non-`None`, nonempty) and a valid
mode that differs from the current one. Returns `(changed, new state)`. -/
def set_mode_step {rows cols : ℕ} (simulation_mode : Option String)
    (s : Sensor rows cols) : Bool × Sensor rows cols :=
  match simulation_mode with
  | none => (false, s)
  | some sm =>
    if sm ≠ "" ∧ sm ∈ VALID_SIMULATION_MODES then
      if s.simulation_mode ≠ sm then (true, { s with simulation_mode := sm })
      else (false, s)
    else (false, s)

/-- Second block of `SimulatedSensor.set_config`: the `foot` argument is
applied when it is truthy and valid and differs from the current foot; the
base image is reloaded only when the path resolved through `image_map`
differs from the current `image_path`. `loadBase` is the filesystem
collaborator giving the base matrix `_load_image` installs for a path.
Returns `(changed, number of image reloads performed, new state)`. -/
def set_foot_step {rows cols : ℕ} (loadBase : String → Fin rows → Fin cols → ℚ)
    (foot : Option String) (s : Sensor rows cols) :
    Bool × ℕ × Sensor rows cols :=
  match foot with
  | none => (false, 0, s)
  | some f =>
    if f ≠ "" ∧ f ∈ VALID_FEET then
      if s.foot ≠ f then
        let ip := image_map_get f
        if ip ≠ s.image_path then
          (true, 1, { s with foot := f, image_path := ip, base := loadBase ip })
        else (true, 0, { s with foot := f })
      else (false, 0, s)
    else (false, 0, s)

/-- `SimulatedSensor.set_config`: the mode block followed by the foot block;
`changed` is true when either block changed its field. Returns
`(changed, number of image reloads performed, new state)`. -/
def set_config {rows cols : ℕ} (loadBase : String → Fin rows → Fin cols → ℚ)
    (simulation_mode foot : Option String) (s : Sensor rows cols) :
    Bool × ℕ × Sensor rows cols :=
  let r1 := set_mode_step simulation_mode s
  let r2 := set_foot_step loadBase foot r1.2
  (r1.1 || r2.1, r2.2.1, r2.2.2)

/-- `SimulatedSensor._calculate_temperature_offset`: a uniform offset map,
`-0.3` / `+0.3` per foot in `baja_diferencia` mode, `-1.5` for the left foot
in `alta_diferencia` mode and the zero-filled map otherwise. -/
def calculate_temperature_offset {rows cols : ℕ} (s : Sensor rows cols) :
    Fin rows → Fin cols → ℚ :=
  fun _ _ =>
    if s.simulation_mode = "baja_diferencia" then
      if s.foot = "izquierdo" then -(3/10) else 3/10
    else
      if s.foot = "izquierdo" then -(3/2) else 0

/-- `SimulatedSensor.get_frame`: advances `t` by `0.05`, then returns
`base + 0.3*sin(t) + noise + offset` elementwise together with the updated
state. `sinFn` is the library sine, `noise` the Gaussian sample drawn for
this call. -/
def get_frame {rows cols : ℕ} (sinFn : ℚ → ℚ) (noise : Fin rows → Fin cols → ℚ)
    (s : Sensor rows cols) : (Fin rows → Fin cols → ℚ) × Sensor rows cols :=
  let t' := s.t + 1/20
  let drift := 3/10 * sinFn t'
  let temp_offset := calculate_temperature_offset s
  (fun i j => s.base i j + drift + noise i j + temp_offset i j, { s with t := t' })

/-- `frame.ravel().tolist()`: the row-major flattening of a matrix. -/
def ravel {rows cols : ℕ} (m : Fin rows → Fin cols → ℚ) : List ℚ :=
  ((List.finRange rows).map (fun i => (List.finRange cols).map (m i))).flatten

/-- Default `current_simulation_mode` of `frame_producer`. -/
def default_simulation_mode : String := "baja_diferencia"

/-- Default `current_foot` of `frame_producer`. -/
def default_foot : String := "izquierdo"

/-- The session variables a `frame_producer` closure shares between its two
loops: `current_simulation_mode`, `current_foot` and the per-client sensor. -/
structure SessionView (rows cols : ℕ) where
  current_simulation_mode : String
  current_foot : String
  sensor : Sensor rows cols

/-- A parsed inbound JSON dict: each key may be absent or hold a string. -/
structure InboundMsg where
  simulation_mode : Option String
  foot : Option String

/-- Body of `receive_messages` for one successfully parsed dict message:
each present field is applied only when it is a recognized enum value, in
which case the session variable is updated and `set_config` is called on the
sensor; an invalid value is only logged. Returns `(changed, new view)`. -/
def process_config_message {rows cols : ℕ}
    (loadBase : String → Fin rows → Fin cols → ℚ) (msg : InboundMsg)
    (v : SessionView rows cols) : Bool × SessionView rows cols :=
  let r1 : Bool × String × Sensor rows cols :=
    match msg.simulation_mode with
    | none => (false, v.current_simulation_mode, v.sensor)
    | some sm =>
      if sm ∈ VALID_SIMULATION_MODES then
        (true, sm, (set_config loadBase (some sm) none v.sensor).2.2)
      else (false, v.current_simulation_mode, v.sensor)
  let r2 : Bool × String × Sensor rows cols :=
    match msg.foot with
    | none => (false, v.current_foot, r1.2.2)
    | some f =>
      if f ∈ VALID_FEET then
        (true, f, (set_config loadBase none (some f) r1.2.2).2.2)
      else (false, v.current_foot, r1.2.2)
  (r1.1 || r2.1,
   { current_simulation_mode := r1.2.1, current_foot := r2.2.1, sensor := r2.2.2 })

/-- Outcome of the one-second wait for the initial client message in
`frame_producer`: a timeout, a payload that is not valid JSON, a JSON value
that is not a dict, or a parsed dict. -/
inductive HandshakeInput where
  | timeout
  | unparsable
  | nonDict
  | parsed (msg : InboundMsg)

/-- Handshake phase of `frame_producer`: a timeout, an unparsable payload or
a non-dict payload is swallowed (`pass`) and streaming proceeds with the
incoming session variables; a parsed dict has its valid fields applied
exactly as in `receive_messages`. Returns `(proceeds to streaming, view)`. -/
def handshake_config {rows cols : ℕ}
    (loadBase : String → Fin rows → Fin cols → ℚ) (inp : HandshakeInput)
    (v : SessionView rows cols) : Bool × SessionView rows cols :=
  match inp with
  | .timeout => (true, v)
  | .unparsable => (true, v)
  | .nonDict => (true, v)
  | .parsed msg => (true, (process_config_message loadBase msg v).2)

/-- Shared state of one streaming session: the `running` flag and the
session view shared by the sender and receiver loops. -/
structure SessionState (rows cols : ℕ) where
  running : Bool
  view : SessionView rows cols

/-- What one iteration of `receive_messages` observes: a poll timeout, an
arriving payload (possibly unparsable or not a dict), a closed connection,
or any other transport exception. -/
inductive RecvEvent where
  | timeout
  | payloadUnparsable
  | payloadNonDict
  | payloadDict (msg : InboundMsg)
  | closed
  | fault

/-- One iteration of the `receive_messages` loop. The loop body runs only
while `running`; a timeout or a malformed payload just continues; a dict
payload is processed; `ConnectionClosed` or any other exception clears
`running` and breaks. -/
def receive_step {rows cols : ℕ}
    (loadBase : String → Fin rows → Fin cols → ℚ) (ev : RecvEvent)
    (st : SessionState rows cols) : SessionState rows cols :=
  if st.running then
    match ev with
    | .timeout => st
    | .payloadUnparsable => st
    | .payloadNonDict => st
    | .payloadDict msg =>
      { st with view := (process_config_message loadBase msg st.view).2 }
    | .closed => { st with running := false }
    | .fault => { st with running := false }
  else st

/-- The JSON payload written by `send_frames` on each tick. -/
structure FramePayload where
  simulation_mode : String
  foot : String
  timestamp : ℚ
  rows : ℕ
  cols : ℕ
  data : List ℚ

/-- What one iteration of `send_frames` observes: a successful tick (with
the wall-clock time and the oracles `get_frame` consumes), a closed
connection, or any other exception while sending. -/
inductive SendEvent (rows cols : ℕ) where
  | tick (now : ℚ) (sinFn : ℚ → ℚ) (noise : Fin rows → Fin cols → ℚ)
  | closed
  | fault

/-- One iteration of the `send_frames` loop: while `running`, a tick calls
`get_frame` and builds the payload from the current session variables, the
sensor's dimensions, the wall clock and the flattened frame; a
`ConnectionClosed` or any other exception clears `running` and breaks.
Returns `(payload written, new state)`. -/
def send_step {rows cols : ℕ} (ev : SendEvent rows cols)
    (st : SessionState rows cols) : Option FramePayload × SessionState rows cols :=
  if st.running then
    match ev with
    | .tick now sinFn noise =>
      let fr := get_frame sinFn noise st.view.sensor
      (some { simulation_mode := st.view.current_simulation_mode
              foot := st.view.current_foot
              timestamp := now
              rows := rows
              cols := cols
              data := ravel fr.1 },
       { st with view := { st.view with sensor := fr.2 } })
    | .closed => (none, { st with running := false })
    | .fault => (none, { st with running := false })
  else (none, st)

/-- The computed sleep of `send_frames`:
`max(0.0, INTERVAL - elapsed)`. -/
def computed_wait (elapsed : ℚ) : ℚ := max 0 (INTERVAL - elapsed)

/-- A concrete sensor used by witnesses. -/
def sensor0 : Sensor 1 1 :=
  { temp_min := 28, temp_max := 38, noise_std := 3/20, t := 0
    image_path := "pie_izquierdo.png"
    simulation_mode := "baja_diferencia", foot := "izquierdo"
    base := fun _ _ => 30 }

/-- A concrete base-matrix loader used by witnesses. -/
def lb0 : String → Fin 1 → Fin 1 → ℚ := fun _ _ _ => 30

/-- A concrete session view used by witnesses. -/
def view0 : SessionView 1 1 :=
  { current_simulation_mode := "baja_diferencia", current_foot := "izquierdo"
    sensor := sensor0 }

/-- A concrete stopped session state used by the C7 witness. -/
def stStopped : SessionState 1 1 := { running := false, view := view0 }

/-- A concrete running session state used by the C7 and C9 witnesses. -/
def stRunning : SessionState 1 1 := { running := true, view := view0 }

/-- A concrete constant 1×1 grayscale image used by the C10 witness. -/
def arrConst : Fin 1 → Fin 1 → ℚ := fun _ _ => 5

end MlxServer

namespace MlxServer

/-- **C1.** The offset map is uniform and matches the rule table: for every
pixel, `baja_diferencia`/`izquierdo` gives `-0.3`, `baja_diferencia`/`derecho`
gives `+0.3`, `alta_diferencia`/`izquierdo` gives `-1.5` and
`alta_diferencia`/`derecho` gives `0`. -/
theorem offset_rule_table {rows cols : ℕ} (s : Sensor rows cols)
    (i : Fin rows) (j : Fin cols) :
    (s.simulation_mode = "baja_diferencia" → s.foot = "izquierdo" →
      calculate_temperature_offset s i j = -(3/10)) ∧
    (s.simulation_mode = "baja_diferencia" → s.foot = "derecho" →
      calculate_temperature_offset s i j = 3/10) ∧
    (s.simulation_mode = "alta_diferencia" → s.foot = "izquierdo" →
      calculate_temperature_offset s i j = -(3/2)) ∧
    (s.simulation_mode = "alta_diferencia" → s.foot = "derecho" →
      calculate_temperature_offset s i j = 0) := by
  refine ⟨fun hm hf => ?_, fun hm hf => ?_, fun hm hf => ?_, fun hm hf => ?_⟩ <;>
    simp [calculate_temperature_offset, hm, hf]

/-- Witness for C1 at a concrete sensor in `alta_diferencia` mode with the
left foot. -/
theorem offset_rule_table_witness :
    calculate_temperature_offset
      { sensor0 with simulation_mode := "alta_diferencia" } 0 0 = -(3/2) :=
  (offset_rule_table { sensor0 with simulation_mode := "alta_diferencia" } 0 0).2.2.1
    rfl rfl

/-- The row-major flattening of a `rows × cols` matrix has exactly
`rows * cols` entries. -/
theorem ravel_length {rows cols : ℕ} (m : Fin rows → Fin cols → ℚ) :
    (ravel m).length = rows * cols := by
  simp [ravel, List.length_flatten, Function.comp_def]

/-- **C2.** `get_frame` first advances the phase by exactly `0.05`, then
returns the `rows × cols` matrix equal elementwise to
`base + 0.3 * sin t + noise + offset`, with `t` the advanced phase; drift and
offset are deterministic in `t` and the config, and the flattened frame has
exactly `rows * cols` values. -/
theorem get_frame_spec {rows cols : ℕ} (sinFn : ℚ → ℚ)
    (noise : Fin rows → Fin cols → ℚ) (s : Sensor rows cols) :
    (get_frame sinFn noise s).2.t = s.t + 1/20 ∧
    (∀ i j, (get_frame sinFn noise s).1 i j =
      s.base i j + 3/10 * sinFn (s.t + 1/20) + noise i j +
        calculate_temperature_offset s i j) ∧
    (ravel (get_frame sinFn noise s).1).length = rows * cols := by
  refine ⟨rfl, fun i j => rfl, ravel_length _⟩

/-- **C4.** Re-applying the current configuration (mode and/or foot equal to
the current state) returns `changed = false`, performs no image reload, and
leaves the sensor state unchanged. -/
theorem set_config_idempotent {rows cols : ℕ}
    (loadBase : String → Fin rows → Fin cols → ℚ) (s : Sensor rows cols) :
    set_config loadBase (some s.simulation_mode) (some s.foot) s = (false, 0, s) ∧
    set_config loadBase (some s.simulation_mode) none s = (false, 0, s) ∧
    set_config loadBase none (some s.foot) s = (false, 0, s) := by
  refine ⟨?_, ?_, ?_⟩ <;>
    simp [set_config, set_mode_step, set_foot_step]

/-! Helper lemmas about the two blocks of `set_config`. -/

theorem mem_modes_ne_empty {sm : String} (h : sm ∈ VALID_SIMULATION_MODES) :
    sm ≠ "" := by
  rintro rfl; exact absurd h (by decide)

theorem mem_feet_ne_empty {f : String} (h : f ∈ VALID_FEET) : f ≠ "" := by
  rintro rfl; exact absurd h (by decide)

theorem set_mode_step_preserves {rows cols : ℕ} (sm? : Option String)
    (s : Sensor rows cols) :
    (set_mode_step sm? s).2.foot = s.foot ∧
    (set_mode_step sm? s).2.image_path = s.image_path ∧
    (set_mode_step sm? s).2.base = s.base := by
  cases sm? with
  | none => exact ⟨rfl, rfl, rfl⟩
  | some sm =>
    simp only [set_mode_step]
    split_ifs <;> exact ⟨rfl, rfl, rfl⟩

theorem set_mode_step_invalid {rows cols : ℕ} {sm : String} (s : Sensor rows cols)
    (h : sm ∉ VALID_SIMULATION_MODES) : set_mode_step (some sm) s = (false, s) := by
  simp [set_mode_step, h]

theorem set_mode_step_valid {rows cols : ℕ} {sm : String} (s : Sensor rows cols)
    (h : sm ∈ VALID_SIMULATION_MODES) :
    (set_mode_step (some sm) s).2.simulation_mode = sm := by
  rcases eq_or_ne s.simulation_mode sm with he | hne
  · simp [set_mode_step, mem_modes_ne_empty h, h, he]
  · simp [set_mode_step, mem_modes_ne_empty h, h, hne]

theorem set_foot_step_invalid {rows cols : ℕ}
    (lb : String → Fin rows → Fin cols → ℚ) {f : String} (s : Sensor rows cols)
    (h : f ∉ VALID_FEET) : set_foot_step lb (some f) s = (false, 0, s) := by
  simp [set_foot_step, h]

theorem set_foot_step_same {rows cols : ℕ}
    (lb : String → Fin rows → Fin cols → ℚ) {f : String} (s : Sensor rows cols)
    (h : s.foot = f) : set_foot_step lb (some f) s = (false, 0, s) := by
  simp [set_foot_step, h]

theorem set_foot_step_change_reload {rows cols : ℕ}
    (lb : String → Fin rows → Fin cols → ℚ) {f : String} (s : Sensor rows cols)
    (hf : f ∈ VALID_FEET) (hne : s.foot ≠ f) (hp : image_map_get f ≠ s.image_path) :
    set_foot_step lb (some f) s =
      (true, 1, { s with foot := f, image_path := image_map_get f,
                         base := lb (image_map_get f) }) := by
  simp [set_foot_step, mem_feet_ne_empty hf, hf, hne, hp]

theorem set_foot_step_change_noreload {rows cols : ℕ}
    (lb : String → Fin rows → Fin cols → ℚ) {f : String} (s : Sensor rows cols)
    (hf : f ∈ VALID_FEET) (hne : s.foot ≠ f) (hp : image_map_get f = s.image_path) :
    set_foot_step lb (some f) s = (true, 0, { s with foot := f }) := by
  simp [set_foot_step, mem_feet_ne_empty hf, hf, hne, hp]

theorem set_foot_step_valid_foot {rows cols : ℕ}
    (lb : String → Fin rows → Fin cols → ℚ) {f : String} (s : Sensor rows cols)
    (hf : f ∈ VALID_FEET) : (set_foot_step lb (some f) s).2.2.foot = f := by
  rcases eq_or_ne s.foot f with h | h
  · rw [set_foot_step_same lb s h]; exact h
  · by_cases hp : image_map_get f = s.image_path
    · rw [set_foot_step_change_noreload lb s hf h hp]
    · rw [set_foot_step_change_reload lb s hf h hp]

theorem set_foot_step_preserves_mode {rows cols : ℕ}
    (lb : String → Fin rows → Fin cols → ℚ) (f? : Option String)
    (s : Sensor rows cols) :
    (set_foot_step lb f? s).2.2.simulation_mode = s.simulation_mode := by
  cases f? with
  | none => rfl
  | some f =>
    simp only [set_foot_step]
    split_ifs <;> rfl

theorem set_config_none_foot {rows cols : ℕ}
    (lb : String → Fin rows → Fin cols → ℚ) (f? : Option String)
    (s : Sensor rows cols) : set_config lb none f? s = set_foot_step lb f? s := rfl

theorem set_config_mode_only {rows cols : ℕ}
    (lb : String → Fin rows → Fin cols → ℚ) (sm? : Option String)
    (s : Sensor rows cols) :
    (set_config lb sm? none s).2.2 = (set_mode_step sm? s).2 ∧
    (set_config lb sm? none s).2.1 = 0 := ⟨rfl, rfl⟩

theorem set_config_valid_foot {rows cols : ℕ}
    (lb : String → Fin rows → Fin cols → ℚ) (sm? : Option String) {f : String}
    (s : Sensor rows cols) (hf : f ∈ VALID_FEET) :
    (set_config lb sm? (some f) s).2.2.foot = f :=
  set_foot_step_valid_foot lb _ hf

theorem set_config_foot_same_no_reload {rows cols : ℕ}
    (lb : String → Fin rows → Fin cols → ℚ) (sm? : Option String) {f : String}
    (s : Sensor rows cols) (h : s.foot = f) :
    (set_config lb sm? (some f) s).2.1 = 0 := by
  obtain ⟨hfoot, -, -⟩ := set_mode_step_preserves sm? s
  simp only [set_config]
  rw [set_foot_step_same lb _ (hfoot.trans h)]

/-- **C3.** Calling `set_config` with a valid foot `f` differing from the
current foot returns `changed = true`; the base matrix is reloaded exactly
when the resolved image path differs from the currently loaded one; and from
any state satisfying the server's invariant (`image_path` is the image of
the current valid foot, as holds for every sensor `frame_producer` creates),
the first such call reloads once and an immediately repeated identical call
reloads zero further times — exactly one reload for the pair. -/
theorem set_config_foot_reload {rows cols : ℕ}
    (lb : String → Fin rows → Fin cols → ℚ) (sm? : Option String) (f : String)
    (s : Sensor rows cols) (hf : f ∈ VALID_FEET) (hne : f ≠ s.foot) :
    (set_config lb sm? (some f) s).1 = true ∧
    ((set_config lb sm? (some f) s).2.1 = 1 ↔ image_map_get f ≠ s.image_path) ∧
    (s.foot ∈ VALID_FEET → s.image_path = image_map_get s.foot →
      (set_config lb sm? (some f) s).2.1 = 1 ∧
      (set_config lb sm? (some f) (set_config lb sm? (some f) s).2.2).2.1 = 0) := by
  obtain ⟨hfoot, hpath, -⟩ := set_mode_step_preserves sm? s
  have hne1 : (set_mode_step sm? s).2.foot ≠ f := by
    rw [hfoot]; exact Ne.symm hne
  refine ⟨?_, ?_, ?_⟩
  · simp only [set_config]
    by_cases hp : image_map_get f = (set_mode_step sm? s).2.image_path
    · rw [set_foot_step_change_noreload lb _ hf hne1 hp]; simp
    · rw [set_foot_step_change_reload lb _ hf hne1 hp]; simp
  · simp only [set_config]
    by_cases hp : image_map_get f = (set_mode_step sm? s).2.image_path
    · rw [set_foot_step_change_noreload lb _ hf hne1 hp]
      rw [hpath] at hp
      simp [hp]
    · rw [set_foot_step_change_reload lb _ hf hne1 hp]
      rw [hpath] at hp
      simp [hp]
  · intro hsf hinv
    have hdiff : image_map_get f ≠ s.image_path := by
      rw [hinv]
      have hf' : f = "izquierdo" ∨ f = "derecho" := by simpa [VALID_FEET] using hf
      have hsf' : s.foot = "izquierdo" ∨ s.foot = "derecho" := by
        simpa [VALID_FEET] using hsf
      rcases hf' with rfl | rfl <;> rcases hsf' with h1 | h1 <;>
        first
          | exact absurd h1.symm hne
          | (rw [h1]; decide)
    refine ⟨?_, ?_⟩
    · simp only [set_config]
      rw [set_foot_step_change_reload lb _ hf hne1 (by rw [hpath]; exact hdiff)]
    · exact set_config_foot_same_no_reload lb sm? _ (set_config_valid_foot lb sm? s hf)

/-- Witness for C3: switching `sensor0` (left foot, left image loaded) to
the right foot reloads once, and repeating the call reloads no further. -/
theorem set_config_foot_reload_witness :
    (set_config lb0 none (some "derecho") sensor0).2.1 = 1 ∧
    (set_config lb0 none (some "derecho")
      (set_config lb0 none (some "derecho") sensor0).2.2).2.1 = 0 :=
  (set_config_foot_reload lb0 none "derecho" sensor0 (by decide)
    (by decide)).2.2 (by decide) (by decide)

/-! Helper lemmas about the receiver's message handling. -/

theorem process_mode_applied {rows cols : ℕ}
    (lb : String → Fin rows → Fin cols → ℚ) (msg : InboundMsg)
    (v : SessionView rows cols) {mv : String} (h1 : msg.simulation_mode = some mv)
    (h2 : mv ∈ VALID_SIMULATION_MODES) :
    (process_config_message lb msg v).2.current_simulation_mode = mv ∧
    (process_config_message lb msg v).2.sensor.simulation_mode = mv := by
  have hmode : (set_config lb (some mv) none v.sensor).2.2.simulation_mode = mv := by
    rw [(set_config_mode_only lb (some mv) v.sensor).1]
    exact set_mode_step_valid v.sensor h2
  cases msg with
  | mk sm? f? =>
    cases h1
    constructor
    · simp [process_config_message, h2]
    · cases f? with
      | none => simpa [process_config_message, h2] using hmode
      | some f =>
        by_cases hf : f ∈ VALID_FEET
        · simp only [process_config_message, h2, if_pos hf]
          rw [set_config_none_foot]
          rw [set_foot_step_preserves_mode]
          exact hmode
        · simpa [process_config_message, h2, hf] using hmode

theorem process_foot_applied {rows cols : ℕ}
    (lb : String → Fin rows → Fin cols → ℚ) (msg : InboundMsg)
    (v : SessionView rows cols) {fv : String} (h1 : msg.foot = some fv)
    (h2 : fv ∈ VALID_FEET) :
    (process_config_message lb msg v).2.current_foot = fv ∧
    (process_config_message lb msg v).2.sensor.foot = fv := by
  cases msg with
  | mk sm? f? =>
    cases h1
    constructor
    · simp [process_config_message, h2]
    · simp only [process_config_message, h2, if_pos h2]
      rw [set_config_none_foot]
      exact set_foot_step_valid_foot lb _ h2

theorem process_mode_invalid {rows cols : ℕ}
    (lb : String → Fin rows → Fin cols → ℚ) (msg : InboundMsg)
    (v : SessionView rows cols) {sm : String} (h1 : msg.simulation_mode = some sm)
    (h2 : sm ∉ VALID_SIMULATION_MODES) :
    (process_config_message lb msg v).2.current_simulation_mode =
      v.current_simulation_mode ∧
    (process_config_message lb msg v).2.sensor.simulation_mode =
      v.sensor.simulation_mode := by
  cases msg with
  | mk sm? f? =>
    cases h1
    constructor
    · simp [process_config_message, h2]
    · cases f? with
      | none => simp [process_config_message, h2]
      | some f =>
        by_cases hf : f ∈ VALID_FEET
        · simp only [process_config_message, h2, if_neg h2, if_pos hf]
          rw [set_config_none_foot]
          exact set_foot_step_preserves_mode lb _ v.sensor
        · simp [process_config_message, h2, hf]

theorem process_foot_invalid {rows cols : ℕ}
    (lb : String → Fin rows → Fin cols → ℚ) (msg : InboundMsg)
    (v : SessionView rows cols) {fo : String} (h1 : msg.foot = some fo)
    (h2 : fo ∉ VALID_FEET) :
    (process_config_message lb msg v).2.current_foot = v.current_foot ∧
    (process_config_message lb msg v).2.sensor.foot = v.sensor.foot ∧
    (process_config_message lb msg v).2.sensor.image_path = v.sensor.image_path := by
  cases msg with
  | mk sm? f? =>
    cases h1
    refine ⟨by simp [process_config_message, h2], ?_, ?_⟩ <;>
    · cases sm? with
      | none => simp [process_config_message, h2]
      | some sm =>
        by_cases hsm : sm ∈ VALID_SIMULATION_MODES
        · simp only [process_config_message, h2, if_neg h2, if_pos hsm]
          rw [(set_config_mode_only lb (some sm) v.sensor).1]
          first
            | exact (set_mode_step_preserves (some sm) v.sensor).1
            | exact (set_mode_step_preserves (some sm) v.sensor).2.1
        · simp [process_config_message, h2, hsm]

/-- **C5.** Unrecognized `simulation_mode`/`foot` values never mutate sensor
state and contribute `changed = false`, both in `set_config` (where an
invalid argument behaves exactly like an absent one) and in the receiver's
per-field handling, where the valid other field of the same message is
still applied. -/
theorem invalid_config_values_ignored {rows cols : ℕ}
    (lb : String → Fin rows → Fin cols → ℚ) (sm fo mv fv : String)
    (v : SessionView rows cols)
    (hsm : sm ∉ VALID_SIMULATION_MODES) (hfo : fo ∉ VALID_FEET)
    (hmv : mv ∈ VALID_SIMULATION_MODES) (hfv : fv ∈ VALID_FEET) :
    (∀ f?, set_config lb (some sm) f? v.sensor = set_config lb none f? v.sensor) ∧
    (∀ sm?, set_config lb sm? (some fo) v.sensor = set_config lb sm? none v.sensor) ∧
    set_config lb (some sm) (some fo) v.sensor = (false, 0, v.sensor) ∧
    ((process_config_message lb ⟨some sm, some fo⟩ v).1 = false ∧
      (process_config_message lb ⟨some sm, some fo⟩ v).2 = v) ∧
    ((process_config_message lb ⟨some sm, some fv⟩ v).2.current_simulation_mode =
        v.current_simulation_mode ∧
      (process_config_message lb ⟨some sm, some fv⟩ v).2.sensor.simulation_mode =
        v.sensor.simulation_mode ∧
      (process_config_message lb ⟨some sm, some fv⟩ v).2.current_foot = fv ∧
      (process_config_message lb ⟨some sm, some fv⟩ v).2.sensor.foot = fv) ∧
    ((process_config_message lb ⟨some mv, some fo⟩ v).2.current_foot =
        v.current_foot ∧
      (process_config_message lb ⟨some mv, some fo⟩ v).2.sensor.foot =
        v.sensor.foot ∧
      (process_config_message lb ⟨some mv, some fo⟩ v).2.sensor.image_path =
        v.sensor.image_path ∧
      (process_config_message lb ⟨some mv, some fo⟩ v).2.current_simulation_mode =
        mv ∧
      (process_config_message lb ⟨some mv, some fo⟩ v).2.sensor.simulation_mode =
        mv) := by
  refine ⟨?_, ?_, ?_, ?_, ?_, ?_⟩
  · intro f?
    simp only [set_config, set_mode_step_invalid v.sensor hsm]
    rfl
  · intro sm?
    simp only [set_config, set_foot_step_invalid lb _ hfo]
    rfl
  · simp only [set_config, set_mode_step_invalid v.sensor hsm,
      set_foot_step_invalid lb _ hfo]
    rfl
  · constructor
    · simp [process_config_message, hsm, hfo]
    · simp [process_config_message, hsm, hfo]
  · obtain ⟨hc1, hc2⟩ := process_mode_invalid lb ⟨some sm, some fv⟩ v rfl hsm
    obtain ⟨hc3, hc4⟩ := process_foot_applied lb ⟨some sm, some fv⟩ v rfl hfv
    exact ⟨hc1, hc2, hc3, hc4⟩
  · obtain ⟨hc1, hc2, hc3⟩ := process_foot_invalid lb ⟨some mv, some fo⟩ v rfl hfo
    obtain ⟨hc4, hc5⟩ := process_mode_applied lb ⟨some mv, some fo⟩ v rfl hmv
    exact ⟨hc1, hc2, hc3, hc4, hc5⟩

/-- Witness for C5: the invalid strings `"x"`/`"y"` are ignored while the
valid foot of the same message is still applied. -/
theorem invalid_config_values_ignored_witness :
    set_config lb0 (some "x") (some "y") sensor0 = (false, 0, sensor0) ∧
    (process_config_message lb0 ⟨some "x", some "derecho"⟩ view0).2.current_foot =
      "derecho" := by
  have h := invalid_config_values_ignored lb0 "x" "y" "alta_diferencia" "derecho"
    view0 (by decide) (by decide) (by decide) (by decide)
  exact ⟨h.2.2.1, h.2.2.2.2.1.2.2.1⟩

/-- **C6.** A handshake timeout, an unparsable payload or a non-dict payload
does not terminate the session: streaming proceeds with the session
variables untouched (the defaults `{baja_diferencia, izquierdo}` in
`frame_producer`); a parsed dict also proceeds, with each valid field
applied via `set_config` before streaming begins. -/
theorem handshake_tolerant {rows cols : ℕ}
    (lb : String → Fin rows → Fin cols → ℚ) (v : SessionView rows cols)
    (msg : InboundMsg) (mv fv : String) :
    handshake_config lb .timeout v = (true, v) ∧
    handshake_config lb .unparsable v = (true, v) ∧
    handshake_config lb .nonDict v = (true, v) ∧
    (handshake_config lb (.parsed msg) v).1 = true ∧
    (msg.simulation_mode = some mv → mv ∈ VALID_SIMULATION_MODES →
      (handshake_config lb (.parsed msg) v).2.current_simulation_mode = mv ∧
      (handshake_config lb (.parsed msg) v).2.sensor.simulation_mode = mv) ∧
    (msg.foot = some fv → fv ∈ VALID_FEET →
      (handshake_config lb (.parsed msg) v).2.current_foot = fv ∧
      (handshake_config lb (.parsed msg) v).2.sensor.foot = fv) := by
  refine ⟨rfl, rfl, rfl, rfl, ?_, ?_⟩
  · intro h1 h2
    exact process_mode_applied lb msg v h1 h2
  · intro h1 h2
    exact process_foot_applied lb msg v h1 h2

/-- Witness for C6: a handshake timeout with the default session variables
proceeds to streaming with the defaults, and a parsed `{"foot":"derecho"}`
message applies the foot. -/
theorem handshake_tolerant_witness :
    handshake_config lb0 HandshakeInput.timeout view0 = (true, view0) ∧
    (handshake_config lb0 (HandshakeInput.parsed ⟨none, some "derecho"⟩)
      view0).2.current_foot = "derecho" := by
  have h := handshake_tolerant lb0 view0 ⟨none, some "derecho"⟩
    "baja_diferencia" "derecho"
  exact ⟨h.1, (h.2.2.2.2.2 rfl (by decide)).1⟩

/-- **C8.** For every elapsed time `e ≥ 0` the sender's wait before the next
tick equals `max 0 (period − e)` with `period = 1/4` second (250 ms, 4 fps),
and is never negative. -/
theorem computed_wait_spec (e : ℚ) (he : 0 ≤ e) :
    computed_wait e = max 0 (1/4 - e) ∧ 0 ≤ computed_wait e := by
  constructor
  · simp [computed_wait, INTERVAL, FPS]
  · exact le_max_left _ _

/-- Witness for C8 at `e = 3/10`. -/
theorem computed_wait_spec_witness :
    (0 : ℚ) ≤ 3/10 ∧ (computed_wait (3/10) = max 0 (1/4 - 3/10) ∧ 0 ≤ computed_wait (3/10)) :=
  ⟨by norm_num, computed_wait_spec (3/10) (by norm_num)⟩

/-- **C7.** A receive-poll timeout never terminates the session (the
receiver iteration leaves the state untouched and re-polls); the stop signal
is cleared by a loop iteration only on a closed connection or an unhandled
transport fault; and once `running` is false, both loop bodies no longer
execute. -/
theorem session_termination {rows cols : ℕ}
    (lb : String → Fin rows → Fin cols → ℚ) (st : SessionState rows cols)
    (ev : RecvEvent) (evs : SendEvent rows cols) :
    receive_step lb RecvEvent.timeout st = st ∧
    ((receive_step lb ev st).running = false →
      st.running = false ∨ ev = RecvEvent.closed ∨ ev = RecvEvent.fault) ∧
    ((send_step evs st).2.running = false →
      st.running = false ∨ evs = SendEvent.closed ∨ evs = SendEvent.fault) ∧
    (st.running = false →
      receive_step lb ev st = st ∧ send_step evs st = (none, st)) := by
  refine ⟨?_, ?_, ?_, ?_⟩
  · cases hr : st.running <;> simp [receive_step, hr]
  · intro h
    cases hr : st.running with
    | false => exact Or.inl rfl
    | true =>
      cases ev <;> simp_all [receive_step]
  · intro h
    cases hr : st.running with
    | false => exact Or.inl rfl
    | true =>
      cases evs <;> simp_all [send_step]
  · intro h
    simp [receive_step, send_step, h]

/-- Witness for C7: with the stop signal set, both loop bodies are inert,
and a closed connection while running is one of the two allowed causes of
the stop signal. -/
theorem session_termination_witness :
    (receive_step lb0 RecvEvent.timeout stStopped = stStopped ∧
      send_step SendEvent.fault stStopped = (none, stStopped)) ∧
    (stRunning.running = false ∨ RecvEvent.closed = RecvEvent.closed ∨
      RecvEvent.closed = RecvEvent.fault) :=
  ⟨(session_termination lb0 stStopped RecvEvent.timeout SendEvent.fault).2.2.2 rfl,
   (session_termination lb0 stRunning RecvEvent.closed SendEvent.fault).2.1 rfl⟩

/-- **C9.** While the session runs, each sender tick writes a payload tagged
with the session's current `simulation_mode` and `foot` and the wall-clock
timestamp, carrying the sensor's `rows` and `cols` and a `data` field that
is the row-major flattening of the frame produced by `get_frame`, with
exactly `rows * cols` values. -/
theorem frame_payload_spec {rows cols : ℕ} (now : ℚ) (sinFn : ℚ → ℚ)
    (noise : Fin rows → Fin cols → ℚ) (st : SessionState rows cols)
    (h : st.running = true) :
    ∃ p : FramePayload,
      (send_step (SendEvent.tick now sinFn noise) st).1 = some p ∧
      p.simulation_mode = st.view.current_simulation_mode ∧
      p.foot = st.view.current_foot ∧
      p.timestamp = now ∧
      p.rows = rows ∧
      p.cols = cols ∧
      p.data = ravel (get_frame sinFn noise st.view.sensor).1 ∧
      p.data.length = rows * cols := by
  have hs : (send_step (SendEvent.tick now sinFn noise) st).1 =
      some { simulation_mode := st.view.current_simulation_mode
             foot := st.view.current_foot
             timestamp := now
             rows := rows
             cols := cols
             data := ravel (get_frame sinFn noise st.view.sensor).1 } := by
    simp [send_step, h]
  exact ⟨_, hs, rfl, rfl, rfl, rfl, rfl, rfl, ravel_length _⟩

/-- Witness for C9 at a running 1×1 session with zero oracles. -/
theorem frame_payload_spec_witness :
    stRunning.running = true ∧
    ∃ p : FramePayload,
      (send_step (SendEvent.tick 100 (fun _ => 0) (fun _ _ => 0)) stRunning).1 =
        some p ∧
      p.simulation_mode = stRunning.view.current_simulation_mode ∧
      p.foot = stRunning.view.current_foot ∧
      p.timestamp = 100 ∧
      p.rows = 1 ∧
      p.cols = 1 ∧
      p.data = ravel (get_frame (fun _ => 0) (fun _ _ => 0) stRunning.view.sensor).1 ∧
      p.data.length = 1 * 1 :=
  ⟨rfl, frame_payload_spec 100 (fun _ => 0) (fun _ _ => 0) stRunning rfl⟩

/-- **C10.** When the image file exists but every pixel has the same
intensity, the loaded base matrix is uniformly `temp_min` (the normalization
maps a constant image to all zeros), which differs from the midpoint
whenever `temp_min < temp_max`; the midpoint fallback applies to a missing
file. -/
theorem load_image_constant {rows cols : ℕ} [NeZero rows] [NeZero cols]
    (arr : Fin rows → Fin cols → ℚ) (c temp_min temp_max : ℚ)
    (hconst : ∀ i j, arr i j = c) :
    (∀ i j, load_image (LoadResult.found arr) temp_min temp_max i j = temp_min) ∧
    (temp_min < temp_max → ∀ i j,
      load_image (LoadResult.found arr) temp_min temp_max i j ≠
        (temp_min + temp_max) / 2) ∧
    (∀ i j, (load_image (LoadResult.notFound) temp_min temp_max : Fin rows → Fin cols → ℚ) i j =
      (temp_min + temp_max) / 2) := by
  have harr : (fun p : Fin rows × Fin cols => arr p.1 p.2) = fun _ => c :=
    funext fun p => hconst p.1 p.2
  have hmain : ∀ i j, load_image (LoadResult.found arr) temp_min temp_max i j =
      temp_min := by
    intro i j
    simp [load_image, harr, Finset.inf'_const, Finset.sup'_const]
  refine ⟨hmain, ?_, fun i j => rfl⟩
  intro hlt i j
  rw [hmain i j]
  intro hcontra
  nlinarith [hcontra]

/-- Witness for C10: a constant image with the default temperature range
loads as uniformly `28`, not the midpoint `33`; a missing file loads as the
midpoint. -/
theorem load_image_constant_witness :
    (∀ i j : Fin 1, arrConst i j = 5) ∧
    load_image (LoadResult.found arrConst) 28 38 0 0 = 28 ∧
    load_image (LoadResult.found arrConst) 28 38 0 0 ≠ (28 + 38) / 2 ∧
    (load_image (LoadResult.notFound) 28 38 : Fin 1 → Fin 1 → ℚ) 0 0 =
      (28 + 38) / 2 := by
  have h := load_image_constant arrConst 5 28 38 (fun i j => rfl)
  exact ⟨fun i j => rfl, h.1 0 0, h.2.1 (by norm_num) 0 0, h.2.2 0 0⟩

end MlxServer
